import Mathlib

/-!
Verification of the JWT-authentication and credential-lifecycle core of a
FastAPI movie-catalog backend.  The definitions below are a shallow
embedding of the handlers in `src/routes/accounts.py`,
`src/routes/profiles.py` and `src/security/auth.py`: persistent state is
an explicit record of lists, timestamps are natural numbers (UTC epoch
values), HTTP responses are a status code plus a body, and external
collaborators (the password hasher, the JWT codec, SQLAlchemy persistence
failures) enter as explicit function and flag parameters.
-/

namespace FastApiAuth

/-- User-group names, mirroring the `UserGroupEnum` referenced by
`routes/accounts.py` (USER is the default registration group). -/
inductive UserGroupEnum where
  | USER
  | MODERATOR
  | ADMIN
deriving DecidableEq, Repr

/-- A row of the user-group table. -/
structure UserGroupModel where
  id : Nat
  name : UserGroupEnum
deriving DecidableEq, Repr

/-- A row of the user table: identity, stored (hashed) password,
activation flag and group membership. -/
structure UserModel where
  id : Nat
  email : String
  hashed_password : String
  is_active : Bool
  group_id : Nat
deriving DecidableEq, Repr

/-- A persisted activation-token row: owner, opaque token string, expiry
timestamp (UTC). -/
structure ActivationTokenModel where
  user_id : Nat
  token : String
  expires_at : Nat
deriving DecidableEq, Repr

/-- A persisted password-reset-token row. -/
structure PasswordResetTokenModel where
  user_id : Nat
  token : String
  expires_at : Nat
deriving DecidableEq, Repr

/-- A persisted refresh-token row, storing the exact signed token string. -/
structure RefreshTokenModel where
  user_id : Nat
  token : String
  expires_at : Nat
deriving DecidableEq, Repr

/-- The persistent store visible to the account-lifecycle handlers. -/
structure DB where
  users : List UserModel
  user_groups : List UserGroupModel
  activation_tokens : List ActivationTokenModel
  password_reset_tokens : List PasswordResetTokenModel
  refresh_tokens : List RefreshTokenModel
deriving DecidableEq, Repr

/-- Response bodies, keyed by the schema each handler serialises. -/
inductive Body where
  | detail (s : String)
  | message (s : String)
  | loginTokens (access_token refresh_token : String)
  | accessToken (access_token : String)
  | registered (id : Nat) (email : String)
deriving DecidableEq, Repr

/-- An HTTP response: status code plus serialised body. -/
structure Response where
  status : Nat
  body : Body
deriving DecidableEq, Repr

/-- Errors raised by the JWT codec (`BaseSecurityError` hierarchy), each
carrying its string rendering. -/
inductive SecurityError where
  | tokenExpired (msg : String)
  | invalidToken (msg : String)
  | other (msg : String)
deriving DecidableEq, Repr

/-- The `str(error)` rendering of a security error. -/
def SecurityError.str : SecurityError → String
  | .tokenExpired m => m
  | .invalidToken m => m
  | .other m => m

/-- A decoded JWT payload; each claim lookup (`payload.get`) may be
absent. -/
structure TokenPayload where
  user_id : Option Nat
  sub : Option Nat
  idClaim : Option Nat
deriving DecidableEq, Repr

/-- Python `a or b` on optional integers: `None` and `0` are falsy. -/
def pyOr (a b : Option Nat) : Option Nat :=
  match a with
  | some n => if n == 0 then b else some n
  | none => b

/-- First user row matching an email (`select ... where email = ...`,
`.first()`). -/
def findUserByEmail (db : DB) (email : String) : Option UserModel :=
  db.users.find? (fun u => u.email == email)

/-- First user row matching an id. -/
def findUserById (db : DB) (uid : Nat) : Option UserModel :=
  db.users.find? (fun u => u.id == uid)

/-- The generic message returned by the password-reset-request handler on
every path. -/
def genericResetMessage : String :=
  "If you are registered, you will receive an email with instructions."

/-- Handler `request_password_reset_token` of `routes/accounts.py`
(lines 141 to 178): look up the account by email; if absent or inactive,
return the generic message unchanged; otherwise delete every existing
password-reset row of that user, insert a fresh one (`freshToken`,
`freshExpiry` stand for the random token and TTL computed inside
`PasswordResetTokenModel`), and return the same generic message.  The
route declares no status code, so FastAPI returns 200. -/
def request_password_reset_token (db : DB) (email : String)
    (freshToken : String) (freshExpiry : Nat) : Response × DB :=
  match findUserByEmail db email with
  | none => (⟨200, .message genericResetMessage⟩, db)
  | some user =>
    if !user.is_active then
      (⟨200, .message genericResetMessage⟩, db)
    else
      let cleared := db.password_reset_tokens.filter
        (fun r => !(r.user_id == user.id))
      let db2 := { db with password_reset_tokens :=
        cleared ++ [⟨user.id, freshToken, freshExpiry⟩] }
      (⟨200, .message genericResetMessage⟩, db2)

/-- C1: every password-reset request returns status 200 with the one
generic message, on all three paths (no account, inactive account,
active account), so the response never reveals account existence. -/
theorem password_reset_request_uniform_response (db : DB) (email : String)
    (freshToken : String) (freshExpiry : Nat) :
    (request_password_reset_token db email freshToken freshExpiry).1 =
      ⟨200, .message genericResetMessage⟩ := by
  unfold request_password_reset_token
  cases h : findUserByEmail db email with
  | none => simp
  | some user =>
    by_cases ha : user.is_active <;> simp [ha]

/-- Handler `login_user` of `routes/accounts.py` (lines 225 to 257):
look up the account by email; if absent, or the password hash check
fails, reject 401 with one shared message; if the account is inactive,
reject 403; otherwise mint a refresh token, persist its row (a
SQLAlchemy failure, modelled by `persistFail`, rolls back and yields a
generic 500), mint an access token and return both with status 201.
`verify` stands for `UserModel.verify_password`, `mkRefresh` and
`mkAccess` for the JWT manager, `loginTimeDays` for the configured
refresh-row expiry. -/
def login_user (db : DB) (email password : String)
    (verify : UserModel → String → Bool)
    (mkRefresh mkAccess : Nat → String)
    (loginTimeDays : Nat) (persistFail : Bool) : Response × DB :=
  match findUserByEmail db email with
  | none => (⟨401, .detail "Invalid email or password."⟩, db)
  | some user =>
    if !(verify user password) then
      (⟨401, .detail "Invalid email or password."⟩, db)
    else if !user.is_active then
      (⟨403, .detail "User account is not activated."⟩, db)
    else
      let jwtRefresh := mkRefresh user.id
      if persistFail then
        (⟨500, .detail "An error occurred while processing the request."⟩, db)
      else
        (⟨201, .loginTokens (mkAccess user.id) jwtRefresh⟩,
         { db with refresh_tokens :=
            db.refresh_tokens ++ [⟨user.id, jwtRefresh, loginTimeDays⟩] })

/-- C2: a login with a nonexistent email and a login with an existing
email but failing password check produce the same response: status 401
with the identical message. -/
theorem login_identical_errors (db : DB) (e1 pw1 e2 pw2 : String)
    (verify : UserModel → String → Bool)
    (mkRefresh mkAccess : Nat → String)
    (loginTimeDays : Nat) (persistFail : Bool) (u : UserModel)
    (h1 : findUserByEmail db e1 = none)
    (h2 : findUserByEmail db e2 = some u)
    (h3 : verify u pw2 = false) :
    (login_user db e1 pw1 verify mkRefresh mkAccess loginTimeDays
        persistFail).1 =
      ⟨401, .detail "Invalid email or password."⟩ ∧
    (login_user db e2 pw2 verify mkRefresh mkAccess loginTimeDays
        persistFail).1 =
      ⟨401, .detail "Invalid email or password."⟩ := by
  constructor
  · unfold login_user
    simp [h1]
  · unfold login_user
    simp [h2, h3]

/-- A one-user store used by the concrete witnesses below. -/
def dbLogin : DB :=
  { users := [⟨1, "a@x.com", "hpw", true, 1⟩]
    user_groups := [⟨1, UserGroupEnum.USER⟩]
    activation_tokens := []
    password_reset_tokens := []
    refresh_tokens := [] }

/-- A password check that compares against the stored hash of "pw". -/
def verifyHpw : UserModel → String → Bool :=
  fun u pw => u.hashed_password == "h" ++ pw

/-- Witness for C2: in the concrete store, a login with unknown email
and a login with the known email but wrong password both answer 401
with the same message. -/
theorem login_identical_errors_witness :
    (login_user dbLogin "b@x.com" "pw" verifyHpw (fun _ => "r")
        (fun _ => "a") 7 false).1 =
      ⟨401, .detail "Invalid email or password."⟩ ∧
    (login_user dbLogin "a@x.com" "wrong" verifyHpw (fun _ => "r")
        (fun _ => "a") 7 false).1 =
      ⟨401, .detail "Invalid email or password."⟩ :=
  login_identical_errors dbLogin "b@x.com" "pw" "a@x.com" "wrong"
    verifyHpw (fun _ => "r") (fun _ => "a") 7 false
    ⟨1, "a@x.com", "hpw", true, 1⟩ (by decide) (by decide) (by decide)

/-- The join condition of the activation lookup: the row joins a user
whose email matches and carries the submitted token string. -/
def activationMatches (db : DB) (email token : String)
    (r : ActivationTokenModel) : Bool :=
  match findUserById db r.user_id with
  | some u => u.email == email && r.token == token
  | none => false

/-- The activation lookup of `activate_account`: first activation row
joined on (email, token), together with its user (the `joinedload`). -/
def findActivationRecord (db : DB) (email token : String) :
    Option (ActivationTokenModel × UserModel) :=
  match db.activation_tokens.find? (activationMatches db email token) with
  | some r =>
    match findUserById db r.user_id with
    | some u => some (r, u)
    | none => none
  | none => none

/-- Handler `activate_account` of `routes/accounts.py` (lines 107 to
138): look up the activation row by (email, token); if absent, or found
but past expiry (deleting the found row), reject 400 invalid-or-expired;
if the joined user is already active, reject 400 without touching the
row; otherwise mark the user active, delete the row and report
success. -/
def activate_account (db : DB) (email token : String) (now : Nat) :
    Response × DB :=
  match findActivationRecord db email token with
  | none => (⟨400, .detail "Invalid or expired activation token."⟩, db)
  | some (rec, user) =>
    if rec.expires_at < now then
      (⟨400, .detail "Invalid or expired activation token."⟩,
       { db with activation_tokens := db.activation_tokens.erase rec })
    else if user.is_active then
      (⟨400, .detail "User account is already active."⟩, db)
    else
      (⟨200, .message "User account activated successfully."⟩,
       { db with
          users := db.users.map
            (fun u => if u.id == user.id then { u with is_active := true } else u)
          activation_tokens := db.activation_tokens.erase rec })

/-- A successful activation lookup means the row is present and
matching, and the joined user is its first id match. -/
theorem findActivationRecord_some {db : DB} {email token : String}
    {rec : ActivationTokenModel} {u : UserModel}
    (h : findActivationRecord db email token = some (rec, u)) :
    rec ∈ db.activation_tokens ∧
    activationMatches db email token rec = true ∧
    findUserById db rec.user_id = some u := by
  unfold findActivationRecord at h
  cases hf : db.activation_tokens.find? (activationMatches db email token) with
  | none => rw [hf] at h; exact absurd h (by simp)
  | some r =>
    rw [hf] at h
    dsimp only at h
    cases hu : findUserById db r.user_id with
    | none => rw [hu] at h; exact absurd h (by simp)
    | some u2 =>
      rw [hu] at h
      dsimp only at h
      simp only [Option.some.injEq, Prod.mk.injEq] at h
      obtain ⟨hr, hu2⟩ := h
      subst hr
      subst hu2
      exact ⟨List.mem_of_find?_eq_some hf, List.find?_some hf, hu⟩

/-- C4: when the activation lookup finds the (email, token) row but it
is past expiry (and the row is the unique match, stored once, as in a
relational table), the handler answers 400 invalid-or-expired, the row
is deleted, and the identical retry answers the same 400 while changing
nothing further. -/
theorem activation_expired_consumes_record (db : DB) (email token : String)
    (now : Nat) (rec : ActivationTokenModel) (u : UserModel)
    (hfind : findActivationRecord db email token = some (rec, u))
    (hexp : rec.expires_at < now)
    (huniq : ∀ r ∈ db.activation_tokens,
      activationMatches db email token r = true → r = rec)
    (honce : db.activation_tokens.count rec ≤ 1) :
    (activate_account db email token now).1 =
      ⟨400, .detail "Invalid or expired activation token."⟩ ∧
    (activate_account db email token now).2.activation_tokens =
      db.activation_tokens.erase rec ∧
    rec ∉ (activate_account db email token now).2.activation_tokens ∧
    activate_account (activate_account db email token now).2 email token now =
      ((activate_account db email token now).1,
       (activate_account db email token now).2) := by
  obtain ⟨hmem, _, _⟩ := findActivationRecord_some hfind
  have hres : activate_account db email token now =
      (⟨400, .detail "Invalid or expired activation token."⟩,
       { db with activation_tokens := db.activation_tokens.erase rec }) := by
    unfold activate_account
    rw [hfind]
    simp [hexp]
  have hcount : db.activation_tokens.count rec = 1 :=
    le_antisymm honce (List.one_le_count_iff.mpr hmem)
  have hnotmem : rec ∉ db.activation_tokens.erase rec := by
    have h0 : (db.activation_tokens.erase rec).count rec = 0 := by
      rw [List.count_erase_self, hcount]
    exact List.count_eq_zero.mp h0
  have hgone : findActivationRecord
      { db with activation_tokens := db.activation_tokens.erase rec }
      email token = none := by
    unfold findActivationRecord
    have hnone : (db.activation_tokens.erase rec).find?
        (activationMatches
          { db with activation_tokens := db.activation_tokens.erase rec }
          email token) = none := by
      rw [List.find?_eq_none]
      intro x hx hpx
      have hx' : x ∈ db.activation_tokens := List.mem_of_mem_erase hx
      have hmx : activationMatches db email token x = true := hpx
      have : x = rec := huniq x hx' hmx
      exact hnotmem (this ▸ hx)
    rw [hnone]
  constructor
  · rw [hres]
  constructor
  · rw [hres]
  constructor
  · rw [hres]
    exact hnotmem
  · rw [hres]
    unfold activate_account
    rw [hgone]

/-- A store holding one inactive user and one expired activation token,
used by the C4 witness. -/
def dbExpiredActivation : DB :=
  { users := [⟨1, "a@x.com", "hpw", false, 1⟩]
    user_groups := [⟨1, UserGroupEnum.USER⟩]
    activation_tokens := [⟨1, "tok", 10⟩]
    password_reset_tokens := []
    refresh_tokens := [] }

/-- Witness for C4: activating with the expired stored token at time 20
answers 400, removes the row, and the retry answers the same 400 on the
emptied store. -/
theorem activation_expired_consumes_record_witness :
    (activate_account dbExpiredActivation "a@x.com" "tok" 20).1 =
      ⟨400, .detail "Invalid or expired activation token."⟩ ∧
    (activate_account dbExpiredActivation "a@x.com" "tok" 20).2.activation_tokens =
      dbExpiredActivation.activation_tokens.erase ⟨1, "tok", 10⟩ ∧
    (⟨1, "tok", 10⟩ : ActivationTokenModel) ∉
      (activate_account dbExpiredActivation "a@x.com" "tok" 20).2.activation_tokens ∧
    activate_account (activate_account dbExpiredActivation "a@x.com" "tok" 20).2
        "a@x.com" "tok" 20 =
      ((activate_account dbExpiredActivation "a@x.com" "tok" 20).1,
       (activate_account dbExpiredActivation "a@x.com" "tok" 20).2) :=
  activation_expired_consumes_record dbExpiredActivation "a@x.com" "tok" 20
    ⟨1, "tok", 10⟩ ⟨1, "a@x.com", "hpw", false, 1⟩
    (by decide) (by decide) (by decide) (by decide)

/-- C10: when the activation lookup finds a valid, unexpired row but the
joined user is already active, the handler answers 400 already-active
and leaves the store untouched: in particular the activation row is
still present. -/
theorem activation_already_active_keeps_record (db : DB)
    (email token : String) (now : Nat)
    (rec : ActivationTokenModel) (u : UserModel)
    (hfind : findActivationRecord db email token = some (rec, u))
    (hexp : ¬ rec.expires_at < now)
    (hact : u.is_active = true) :
    (activate_account db email token now).1 =
      ⟨400, .detail "User account is already active."⟩ ∧
    (activate_account db email token now).2 = db ∧
    rec ∈ (activate_account db email token now).2.activation_tokens := by
  obtain ⟨hmem, _, _⟩ := findActivationRecord_some hfind
  have hres : activate_account db email token now =
      (⟨400, .detail "User account is already active."⟩, db) := by
    unfold activate_account
    rw [hfind]
    simp [hexp, hact]
  refine ⟨by rw [hres], by rw [hres], ?_⟩
  rw [hres]
  exact hmem

/-- A store holding one already-active user and one unexpired activation
token, used by the C10 witness. -/
def dbActiveActivation : DB :=
  { users := [⟨1, "a@x.com", "hpw", true, 1⟩]
    user_groups := [⟨1, UserGroupEnum.USER⟩]
    activation_tokens := [⟨1, "tok", 100⟩]
    password_reset_tokens := []
    refresh_tokens := [] }

/-- Witness for C10: at time 20 the unexpired token of the already
active user yields the already-active 400 and the row survives. -/
theorem activation_already_active_keeps_record_witness :
    (activate_account dbActiveActivation "a@x.com" "tok" 20).1 =
      ⟨400, .detail "User account is already active."⟩ ∧
    (activate_account dbActiveActivation "a@x.com" "tok" 20).2 =
      dbActiveActivation ∧
    (⟨1, "tok", 100⟩ : ActivationTokenModel) ∈
      (activate_account dbActiveActivation "a@x.com" "tok" 20).2.activation_tokens :=
  activation_already_active_keeps_record dbActiveActivation "a@x.com" "tok" 20
    ⟨1, "tok", 100⟩ ⟨1, "a@x.com", "hpw", true, 1⟩
    (by decide) (by decide) (by decide)

/-- The password-reset record lookup of `reset_password`: first
password-reset row of the given user. -/
def findResetRecord (db : DB) (uid : Nat) : Option PasswordResetTokenModel :=
  db.password_reset_tokens.find? (fun r => r.user_id == uid)

/-- Handler `reset_password` of `routes/accounts.py` (lines 181 to 222):
look up the account by email, rejecting 400 with the shared message when
absent or inactive; look up its password-reset row; when the row is
absent, or present with a different token string (deleting it), or
present and matching but expired (deleting it), reject 400 with the same
message; otherwise store the re-hashed password and delete the row (a
persistence failure, `persistFail`, rolls back into a 500). -/
def reset_password (db : DB) (email token newPassword : String) (now : Nat)
    (hash : String → String) (persistFail : Bool) : Response × DB :=
  match findUserByEmail db email with
  | none => (⟨400, .detail "Invalid email or token."⟩, db)
  | some user =>
    if !user.is_active then
      (⟨400, .detail "Invalid email or token."⟩, db)
    else
      match findResetRecord db user.id with
      | none => (⟨400, .detail "Invalid email or token."⟩, db)
      | some rec =>
        if rec.token != token then
          (⟨400, .detail "Invalid email or token."⟩,
           { db with password_reset_tokens :=
              db.password_reset_tokens.erase rec })
        else if rec.expires_at < now then
          (⟨400, .detail "Invalid email or token."⟩,
           { db with password_reset_tokens :=
              db.password_reset_tokens.erase rec })
        else if persistFail then
          (⟨500, .detail "An error occurred while resetting the password."⟩, db)
        else
          (⟨200, .message "Password reset successfully."⟩,
           { db with
              users := db.users.map (fun u =>
                if u.id == user.id then
                  { u with hashed_password := hash newPassword }
                else u)
              password_reset_tokens := db.password_reset_tokens.erase rec })

/-- C5: with the account found and active and a reset row found, a
mismatching token string and a matching-but-expired token string fail
with the very same 400 response, and both failure paths delete the found
row. -/
theorem reset_mismatch_equals_expired (db : DB) (email badToken newPw : String)
    (now : Nat) (hash : String → String) (persistFail : Bool)
    (user : UserModel) (rec : PasswordResetTokenModel)
    (huser : findUserByEmail db email = some user)
    (hact : user.is_active = true)
    (hrec : findResetRecord db user.id = some rec)
    (hmis : rec.token ≠ badToken)
    (hexp : rec.expires_at < now) :
    (reset_password db email badToken newPw now hash persistFail).1 =
      ⟨400, .detail "Invalid email or token."⟩ ∧
    (reset_password db email rec.token newPw now hash persistFail).1 =
      ⟨400, .detail "Invalid email or token."⟩ ∧
    (reset_password db email badToken newPw now hash
        persistFail).2.password_reset_tokens =
      db.password_reset_tokens.erase rec ∧
    (reset_password db email rec.token newPw now hash
        persistFail).2.password_reset_tokens =
      db.password_reset_tokens.erase rec := by
  have hne : (rec.token != badToken) = true := by
    simp [bne_iff_ne, hmis]
  refine ⟨?_, ?_, ?_, ?_⟩ <;>
    · unfold reset_password
      rw [huser]
      simp [hact, hrec, hne, hexp]

/-- A store holding one active user and one reset row, used by the C5
witness. -/
def dbReset : DB :=
  { users := [⟨1, "a@x.com", "hpw", true, 1⟩]
    user_groups := [⟨1, UserGroupEnum.USER⟩]
    activation_tokens := []
    password_reset_tokens := [⟨1, "tok", 10⟩]
    refresh_tokens := [] }

/-- Witness for C5: at time 20 the stored row (expired at 10) fails the
same way for the wrong string "bad" and for the matching string "tok",
deleting the row in both runs. -/
theorem reset_mismatch_equals_expired_witness :
    (reset_password dbReset "a@x.com" "bad" "npw" 20 (fun s => s) false).1 =
      ⟨400, .detail "Invalid email or token."⟩ ∧
    (reset_password dbReset "a@x.com" "tok" "npw" 20 (fun s => s) false).1 =
      ⟨400, .detail "Invalid email or token."⟩ ∧
    (reset_password dbReset "a@x.com" "bad" "npw" 20 (fun s => s)
        false).2.password_reset_tokens =
      dbReset.password_reset_tokens.erase ⟨1, "tok", 10⟩ ∧
    (reset_password dbReset "a@x.com" "tok" "npw" 20 (fun s => s)
        false).2.password_reset_tokens =
      dbReset.password_reset_tokens.erase ⟨1, "tok", 10⟩ :=
  reset_mismatch_equals_expired dbReset "a@x.com" "bad" "npw" 20
    (fun s => s) false ⟨1, "a@x.com", "hpw", true, 1⟩ ⟨1, "tok", 10⟩
    (by decide) (by decide) (by decide) (by decide) (by decide)

/-- The refresh-row lookup of `refresh_access_token`: first refresh row
whose stored token string equals the submitted one exactly. -/
def findRefreshRecord (db : DB) (token : String) : Option RefreshTokenModel :=
  db.refresh_tokens.find? (fun r => r.token == token)

/-- The subject lookup of `refresh_access_token`: `filter_by(id=user_id)`
with an optional id from the payload; a missing claim matches no row. -/
def findUserByOptId (db : DB) (uid : Option Nat) : Option UserModel :=
  db.users.find? (fun u => some u.id == uid)

/-- Handler `refresh_access_token` of `routes/accounts.py` (lines 260 to
283): decode the refresh token (`decodeRefresh` stands for the JWT
manager), turning any `BaseSecurityError` into a 400 carrying its string
rendering; look up the refresh row by exact token string, rejecting 401
when absent; look up the subject by the `user_id` claim, rejecting 404
when absent; otherwise mint a new access token (`mkAccess`) and answer
200.  No branch writes to the store. -/
def refresh_access_token (db : DB) (refreshToken : String)
    (decodeRefresh : String → Except SecurityError TokenPayload)
    (mkAccess : Option Nat → String) : Response × DB :=
  match decodeRefresh refreshToken with
  | .error e => (⟨400, .detail e.str⟩, db)
  | .ok payload =>
    match findRefreshRecord db refreshToken with
    | none => (⟨401, .detail "Refresh token not found."⟩, db)
    | some _ =>
      match findUserByOptId db payload.user_id with
      | none => (⟨404, .detail "User not found."⟩, db)
      | some _ => (⟨200, .accessToken (mkAccess payload.user_id)⟩, db)

/-- C6: the four outcomes of the refresh endpoint: decode failure is
400 with the error text, missing refresh row is 401, missing subject
account is 404, and otherwise 200 with a freshly minted access token. -/
theorem refresh_status_cases (db : DB) (tok : String)
    (decodeRefresh : String → Except SecurityError TokenPayload)
    (mkAccess : Option Nat → String) :
    (∀ e, decodeRefresh tok = .error e →
      (refresh_access_token db tok decodeRefresh mkAccess).1 =
        ⟨400, .detail e.str⟩) ∧
    (∀ p, decodeRefresh tok = .ok p →
      findRefreshRecord db tok = none →
      (refresh_access_token db tok decodeRefresh mkAccess).1 =
        ⟨401, .detail "Refresh token not found."⟩) ∧
    (∀ p r, decodeRefresh tok = .ok p →
      findRefreshRecord db tok = some r →
      findUserByOptId db p.user_id = none →
      (refresh_access_token db tok decodeRefresh mkAccess).1 =
        ⟨404, .detail "User not found."⟩) ∧
    (∀ p r u, decodeRefresh tok = .ok p →
      findRefreshRecord db tok = some r →
      findUserByOptId db p.user_id = some u →
      (refresh_access_token db tok decodeRefresh mkAccess).1 =
        ⟨200, .accessToken (mkAccess p.user_id)⟩) := by
  refine ⟨?_, ?_, ?_, ?_⟩
  · intro e he
    unfold refresh_access_token
    rw [he]
  · intro p hp hr
    unfold refresh_access_token
    rw [hp]
    dsimp only
    rw [hr]
  · intro p r hp hr hu
    unfold refresh_access_token
    rw [hp]
    dsimp only
    rw [hr]
    dsimp only
    rw [hu]
  · intro p r u hp hr hu
    unfold refresh_access_token
    rw [hp]
    dsimp only
    rw [hr]
    dsimp only
    rw [hu]

/-- A store with one inactive user and one stored refresh row, used by
the refresh witnesses. -/
def dbRefresh : DB :=
  { users := [⟨1, "a@x.com", "hpw", false, 1⟩]
    user_groups := [⟨1, UserGroupEnum.USER⟩]
    activation_tokens := []
    password_reset_tokens := []
    refresh_tokens := [⟨1, "rtok", 100⟩] }

/-- A decoder that accepts exactly the stored refresh token with subject
claim 1 and rejects anything else as invalid. -/
def decodeRtok : String → Except SecurityError TokenPayload :=
  fun s =>
    if s == "rtok" then .ok ⟨some 1, none, none⟩
    else .error (.invalidToken "Invalid token.")

/-- Witness for C6: on the concrete store, a garbage token is 400, the
stored token with its row removed is 401, the stored token with the
subject row removed is 404, and the intact store answers 200 with the
minted access token. -/
theorem refresh_status_cases_witness :
    (refresh_access_token dbRefresh "junk" decodeRtok
        (fun _ => "acc")).1 = ⟨400, .detail "Invalid token."⟩ ∧
    (refresh_access_token { dbRefresh with refresh_tokens := [] } "rtok"
        decodeRtok (fun _ => "acc")).1 =
      ⟨401, .detail "Refresh token not found."⟩ ∧
    (refresh_access_token { dbRefresh with users := [] } "rtok"
        decodeRtok (fun _ => "acc")).1 =
      ⟨404, .detail "User not found."⟩ ∧
    (refresh_access_token dbRefresh "rtok" decodeRtok
        (fun _ => "acc")).1 = ⟨200, .accessToken "acc"⟩ := by
  refine ⟨?_, ?_, ?_, ?_⟩
  · exact (refresh_status_cases dbRefresh "junk" decodeRtok
      (fun _ => "acc")).1 (.invalidToken "Invalid token.") (by rfl)
  · exact (refresh_status_cases { dbRefresh with refresh_tokens := [] }
      "rtok" decodeRtok (fun _ => "acc")).2.1 ⟨some 1, none, none⟩
      (by rfl) (by decide)
  · exact (refresh_status_cases { dbRefresh with users := [] } "rtok"
      decodeRtok (fun _ => "acc")).2.2.1 ⟨some 1, none, none⟩
      ⟨1, "rtok", 100⟩ (by rfl) (by decide) (by decide)
  · exact (refresh_status_cases dbRefresh "rtok" decodeRtok
      (fun _ => "acc")).2.2.2 ⟨some 1, none, none⟩ ⟨1, "rtok", 100⟩
      ⟨1, "a@x.com", "hpw", false, 1⟩ (by rfl) (by decide) (by decide)

/-- C7: a successful refresh leaves the store untouched (no rotation, no
deletion, no new refresh row), and the identical call on the resulting
store succeeds again with the very same response. -/
theorem refresh_no_rotation (db : DB) (tok : String)
    (decodeRefresh : String → Except SecurityError TokenPayload)
    (mkAccess : Option Nat → String)
    (hok : (refresh_access_token db tok decodeRefresh mkAccess).1.status = 200) :
    (refresh_access_token db tok decodeRefresh mkAccess).2 = db ∧
    refresh_access_token
        (refresh_access_token db tok decodeRefresh mkAccess).2
        tok decodeRefresh mkAccess =
      refresh_access_token db tok decodeRefresh mkAccess := by
  have hframe : (refresh_access_token db tok decodeRefresh mkAccess).2 = db := by
    unfold refresh_access_token
    cases decodeRefresh tok with
    | error e => rfl
    | ok p =>
      dsimp only
      cases findRefreshRecord db tok with
      | none => rfl
      | some r =>
        dsimp only
        cases findUserByOptId db p.user_id with
        | none => rfl
        | some u => rfl
  exact ⟨hframe, by rw [hframe]⟩

/-- Witness for C7: the successful concrete refresh from the C6 store
keeps the store intact and repeats identically. -/
theorem refresh_no_rotation_witness :
    (refresh_access_token dbRefresh "rtok" decodeRtok (fun _ => "acc")).2 =
      dbRefresh ∧
    refresh_access_token
        (refresh_access_token dbRefresh "rtok" decodeRtok (fun _ => "acc")).2
        "rtok" decodeRtok (fun _ => "acc") =
      refresh_access_token dbRefresh "rtok" decodeRtok (fun _ => "acc") :=
  refresh_no_rotation dbRefresh "rtok" decodeRtok (fun _ => "acc") (by decide)

/-- C9: the refresh path never checks `is_active`: with a decodable
token, a stored refresh row and an existing but deactivated subject, the
endpoint still answers 200 with a fresh access token. -/
theorem refresh_ignores_inactive (db : DB) (tok : String)
    (decodeRefresh : String → Except SecurityError TokenPayload)
    (mkAccess : Option Nat → String) (p : TokenPayload)
    (r : RefreshTokenModel) (u : UserModel)
    (hp : decodeRefresh tok = .ok p)
    (hr : findRefreshRecord db tok = some r)
    (hu : findUserByOptId db p.user_id = some u)
    (hinact : u.is_active = false) :
    (refresh_access_token db tok decodeRefresh mkAccess).1 =
      ⟨200, .accessToken (mkAccess p.user_id)⟩ := by
  unfold refresh_access_token
  rw [hp]
  dsimp only
  rw [hr]
  dsimp only
  rw [hu]

/-- Witness for C9: the C6 store subject is inactive, yet the refresh
answers 200 with the minted access token. -/
theorem refresh_ignores_inactive_witness :
    (refresh_access_token dbRefresh "rtok" decodeRtok (fun _ => "acc")).1 =
      ⟨200, .accessToken "acc"⟩ :=
  refresh_ignores_inactive dbRefresh "rtok" decodeRtok (fun _ => "acc")
    ⟨some 1, none, none⟩ ⟨1, "rtok", 100⟩ ⟨1, "a@x.com", "hpw", false, 1⟩
    (by rfl) (by decide) (by decide) (by decide)

/-- First group row with the given name (`select ... where name = ...`,
`.first()`). -/
def findGroupByName (db : DB) (g : UserGroupEnum) : Option UserGroupModel :=
  db.user_groups.find? (fun x => x.name == g)

/-- Handler `register_user` of `routes/accounts.py` (lines 44 to 104):
reject 409 when the email already exists; reject 500 when the default
USER group is absent; otherwise create the account and its activation
token inside one transaction and answer 201.  Modelled from the spec:
`UserModel.create` and `ActivationTokenModel` live outside the observed
sources, so the created account is inactive with the hashed password
(`hash`), and `newUserId`, `actToken`, `actExpiry` stand for the
generated id, random token and TTL; a `SQLAlchemyError` in the
transaction (`persistFail`) rolls the whole transaction back, leaving
the store unchanged, and surfaces a generic 500. -/
def register_user (db : DB) (email rawPassword : String)
    (hash : String → String) (newUserId : Nat) (actToken : String)
    (actExpiry : Nat) (persistFail : Bool) : Response × DB :=
  match findUserByEmail db email with
  | some _ =>
    (⟨409, .detail ("A user with this email " ++ email ++
      " already exists.")⟩, db)
  | none =>
    match findGroupByName db UserGroupEnum.USER with
    | none => (⟨500, .detail "Default user group not found."⟩, db)
    | some group =>
      if persistFail then
        (⟨500, .detail "An error occurred during user creation."⟩, db)
      else
        (⟨201, .registered newUserId email⟩,
         { db with
            users := db.users ++
              [⟨newUserId, email, hash rawPassword, false, group.id⟩]
            activation_tokens := db.activation_tokens ++
              [⟨newUserId, actToken, actExpiry⟩] })

/-- C8: under a unique email and an existing default group, the account
row and its activation row are committed atomically: a persistence
failure rolls back to exactly the prior store (neither row persists) and
surfaces the generic 500, while a successful run persists the inactive
account with hashed password together with its activation row. -/
theorem register_atomic_rollback (db : DB) (email rawPassword : String)
    (hash : String → String) (newUserId : Nat) (actToken : String)
    (actExpiry : Nat) (group : UserGroupModel)
    (hfree : findUserByEmail db email = none)
    (hgroup : findGroupByName db UserGroupEnum.USER = some group) :
    (register_user db email rawPassword hash newUserId actToken actExpiry
        true =
      (⟨500, .detail "An error occurred during user creation."⟩, db)) ∧
    ((register_user db email rawPassword hash newUserId actToken actExpiry
        false).1 = ⟨201, .registered newUserId email⟩ ∧
     (register_user db email rawPassword hash newUserId actToken actExpiry
        false).2.users =
       db.users ++ [⟨newUserId, email, hash rawPassword, false, group.id⟩] ∧
     (register_user db email rawPassword hash newUserId actToken actExpiry
        false).2.activation_tokens =
       db.activation_tokens ++ [⟨newUserId, actToken, actExpiry⟩]) := by
  refine ⟨?_, ?_, ?_, ?_⟩ <;>
    · unfold register_user
      rw [hfree]
      dsimp only
      rw [hgroup]
      rfl

/-- An empty store holding only the default USER group, used by the C8
witness. -/
def dbEmpty : DB :=
  { users := []
    user_groups := [⟨1, UserGroupEnum.USER⟩]
    activation_tokens := []
    password_reset_tokens := []
    refresh_tokens := [] }

/-- Witness for C8: on the bootstrap store, the failing transaction
returns 500 and the unchanged store, and the successful one persists
both rows. -/
theorem register_atomic_rollback_witness :
    (register_user dbEmpty "a@x.com" "pw" (fun s => "h" ++ s) 1 "tok" 100
        true =
      (⟨500, .detail "An error occurred during user creation."⟩, dbEmpty)) ∧
    ((register_user dbEmpty "a@x.com" "pw" (fun s => "h" ++ s) 1 "tok" 100
        false).1 = ⟨201, .registered 1 "a@x.com"⟩ ∧
     (register_user dbEmpty "a@x.com" "pw" (fun s => "h" ++ s) 1 "tok" 100
        false).2.users =
       dbEmpty.users ++ [⟨1, "a@x.com", "hpw", false, 1⟩] ∧
     (register_user dbEmpty "a@x.com" "pw" (fun s => "h" ++ s) 1 "tok" 100
        false).2.activation_tokens =
       dbEmpty.activation_tokens ++ [⟨1, "tok", 100⟩]) :=
  register_atomic_rollback dbEmpty "a@x.com" "pw" (fun s => "h" ++ s) 1
    "tok" 100 ⟨1, UserGroupEnum.USER⟩ (by decide) (by decide)

/-- Whether a character list starts with a pattern. -/
def startsWithChars : List Char → List Char → Bool
  | _, [] => true
  | [], _ :: _ => false
  | c :: cs, p :: ps => c == p && startsWithChars cs ps

/-- Whether a pattern occurs contiguously in a character list. -/
def hasSubChars : List Char → List Char → Bool
  | [], ps => ps.isEmpty
  | c :: cs, ps => startsWithChars (c :: cs) ps || hasSubChars cs ps

/-- Python `pat in s` on strings. -/
def containsSub (s pat : String) : Bool :=
  hasSubChars s.data pat.data

/-- ASCII lowercasing, as Python `str.lower` acts on the scheme and
error strings involved here. -/
def strToLower (s : String) : String :=
  String.mk (s.data.map Char.toLower)

/-- Split a character list at the first space, as Python
`str.partition(" ")` does; without a space the remainder is empty,
matching the empty third component of `partition`. -/
def breakOnSpace : List Char → List Char × List Char
  | [] => ([], [])
  | c :: cs =>
    if c == ' ' then ([], cs)
    else
      let r := breakOnSpace cs
      (c :: r.1, r.2)

/-- Python `authorization.partition(" ")`, keeping the scheme and the
token parts used by `_get_bearer_token`. -/
def pyPartitionSpace (s : String) : String × String :=
  let r := breakOnSpace s.data
  (String.mk r.1, String.mk r.2)

/-- Helper `_get_bearer_token` of `routes/profiles.py` (lines 21 to 35):
reject 401 missing-header when the `Authorization` header is absent or
falsy, reject 401 malformed when the scheme is not `bearer` (case
folded) or the token part is empty, and return the token otherwise. -/
def get_bearer_token (authorization : Option String) :
    Except Response String :=
  match authorization with
  | none => .error ⟨401, .detail "Authorization header is missing"⟩
  | some a =>
    if a == "" then
      .error ⟨401, .detail "Authorization header is missing"⟩
    else
      let parts := pyPartitionSpace a
      if strToLower parts.1 != "bearer" || parts.2 == "" then
        .error ⟨401, .detail
          "Invalid Authorization header format. Expected \x27Bearer <token>\x27"⟩
      else
        .ok parts.2

/-- The authentication prelude of `create_profile` in
`routes/profiles.py` (lines 62 to 84): extract the bearer token; on any
decode exception inspect its text for "expired" but raise the same 401
token-expired message in both branches; read the subject claim
(`sub`, then `user_id`, then `id`, with Python falsiness), raising the
token-expired message again when absent; finally resolve the subject,
rejecting 401 when missing or inactive. -/
def create_profile_auth (authorization : Option String) (db : DB)
    (decodeAccess : String → Except SecurityError TokenPayload) :
    Except Response UserModel :=
  match get_bearer_token authorization with
  | .error r => .error r
  | .ok token =>
    match decodeAccess token with
    | .error exc =>
      if containsSub (strToLower exc.str) "expired" then
        .error ⟨401, .detail "Token has expired."⟩
      else
        .error ⟨401, .detail "Token has expired."⟩
    | .ok payload =>
      match pyOr (pyOr payload.sub payload.user_id) payload.idClaim with
      | none => .error ⟨401, .detail "Token has expired."⟩
      | some n =>
        if n == 0 then
          .error ⟨401, .detail "Token has expired."⟩
        else
          match findUserById db n with
          | none => .error ⟨401, .detail "User not found or not active."⟩
          | some u =>
            if !u.is_active then
              .error ⟨401, .detail "User not found or not active."⟩
            else
              .ok u

/-- Dependency `get_current_user` of `security/auth.py` (lines 16 to
64): reject 401 not-authenticated when the `HTTPBearer` dependency
yields no credential; decode, mapping `TokenExpiredError` to the 401
expired message, `InvalidTokenError` to the 401 invalid message, and any
other `BaseSecurityError` to its text; read the subject claim
(`user_id`, then `sub`, then `id`, with Python falsiness), rejecting 401
invalid when absent; resolve the subject, rejecting 401 when missing or
inactive. -/
def get_current_user (credentials : Option String) (db : DB)
    (decodeAccess : String → Except SecurityError TokenPayload) :
    Except Response UserModel :=
  match credentials with
  | none => .error ⟨401, .detail "Not authenticated."⟩
  | some token =>
    if token == "" then
      .error ⟨401, .detail "Not authenticated."⟩
    else
      match decodeAccess token with
      | .error (.tokenExpired _) => .error ⟨401, .detail "Token has expired."⟩
      | .error (.invalidToken _) => .error ⟨401, .detail "Invalid token."⟩
      | .error (.other m) => .error ⟨401, .detail m⟩
      | .ok payload =>
        match pyOr (pyOr payload.user_id payload.sub) payload.idClaim with
        | none => .error ⟨401, .detail "Invalid token."⟩
        | some n =>
          if n == 0 then
            .error ⟨401, .detail "Invalid token."⟩
          else
            match findUserById db n with
            | none =>
              .error ⟨401, .detail "User not found or not active."⟩
            | some u =>
              if !u.is_active then
                .error ⟨401, .detail "User not found or not active."⟩
              else
                .ok u

/-- A decoder that always fails with the expired-token error. -/
def decodeAlwaysExpired : String → Except SecurityError TokenPayload :=
  fun _ => .error (.tokenExpired "Token has expired.")

/-- A decoder that always fails with the invalid-signature error. -/
def decodeAlwaysInvalid : String → Except SecurityError TokenPayload :=
  fun _ => .error (.invalidToken "Invalid token.")

/-- Counterexample to C3: in the protected profile endpoint, an expired
token and an invalid-signature token produce the identical 401 response
("Token has expired."), so the four failure classes do not each carry a
distinct message. -/
theorem bearer_failure_message_collision :
    create_profile_auth (some "Bearer abc") dbEmpty decodeAlwaysExpired =
      .error ⟨401, .detail "Token has expired."⟩ ∧
    create_profile_auth (some "Bearer abc") dbEmpty decodeAlwaysInvalid =
      .error ⟨401, .detail "Token has expired."⟩ ∧
    create_profile_auth (some "Bearer abc") dbEmpty decodeAlwaysExpired =
      create_profile_auth (some "Bearer abc") dbEmpty decodeAlwaysInvalid := by
  refine ⟨rfl, rfl, rfl⟩

/-- C3 amended: violations of the bearer requirement are all 401;
missing header and malformed header carry distinct messages, but in the
protected profile endpoint every decode failure (expired and invalid
signature alike) carries the one message "Token has expired.", while
`get_current_user` does distinguish expired from invalid-signature
tokens. -/
theorem bearer_failure_messages (db : DB)
    (decodeAccess : String → Except SecurityError TokenPayload) :
    get_bearer_token none =
      .error ⟨401, .detail "Authorization header is missing"⟩ ∧
    get_bearer_token (some "Basic abc") =
      .error ⟨401, .detail
        "Invalid Authorization header format. Expected \x27Bearer <token>\x27"⟩ ∧
    (∀ e, decodeAccess "abc" = .error e →
      create_profile_auth (some "Bearer abc") db decodeAccess =
        .error ⟨401, .detail "Token has expired."⟩) ∧
    (∀ m, decodeAccess "tok" = .error (.tokenExpired m) →
      get_current_user (some "tok") db decodeAccess =
        .error ⟨401, .detail "Token has expired."⟩) ∧
    (∀ m, decodeAccess "tok" = .error (.invalidToken m) →
      get_current_user (some "tok") db decodeAccess =
        .error ⟨401, .detail "Invalid token."⟩) := by
  refine ⟨rfl, rfl, ?_, ?_, ?_⟩
  · intro e he
    have hb : get_bearer_token (some "Bearer abc") = .ok "abc" := rfl
    unfold create_profile_auth
    rw [hb]
    dsimp only
    rw [he]
    dsimp only
    rw [ite_self]
  · intro m hm
    unfold get_current_user
    dsimp only
    rw [if_neg (by decide)]
    rw [hm]
  · intro m hm
    unfold get_current_user
    dsimp only
    rw [if_neg (by decide)]
    rw [hm]

/-- Witness for the amended C3: the concrete decoders exercise the
expired and the invalid-signature hypotheses on the empty store. -/
theorem bearer_failure_messages_witness :
    get_bearer_token none =
      .error ⟨401, .detail "Authorization header is missing"⟩ ∧
    get_bearer_token (some "Basic abc") =
      .error ⟨401, .detail
        "Invalid Authorization header format. Expected \x27Bearer <token>\x27"⟩ ∧
    create_profile_auth (some "Bearer abc") dbEmpty decodeAlwaysInvalid =
      .error ⟨401, .detail "Token has expired."⟩ ∧
    get_current_user (some "tok") dbEmpty decodeAlwaysExpired =
      .error ⟨401, .detail "Token has expired."⟩ ∧
    get_current_user (some "tok") dbEmpty decodeAlwaysInvalid =
      .error ⟨401, .detail "Invalid token."⟩ :=
  ⟨(bearer_failure_messages dbEmpty decodeAlwaysInvalid).1,
   (bearer_failure_messages dbEmpty decodeAlwaysInvalid).2.1,
   (bearer_failure_messages dbEmpty decodeAlwaysInvalid).2.2.1
     (.invalidToken "Invalid token.") rfl,
   (bearer_failure_messages dbEmpty decodeAlwaysExpired).2.2.2.1
     "Token has expired." rfl,
   (bearer_failure_messages dbEmpty decodeAlwaysInvalid).2.2.2.2
     "Invalid token." rfl⟩

end FastApiAuth
